import Mathlib

/-!
Shallow embedding of the build-configuration resolver (`src/build.rs`) and the
test-command dispatcher (`src/cmd_test.rs`) of `cargo-web`, together with
theorems settling the specification claims about them.

External collaborators that live outside the two embedded source files
(the `cargo_shim` toolchain driver, the Emscripten provisioner, the command
prober, the browser test harness) are modelled as explicit oracle arguments,
so every embedded function stays a pure, executable Lean definition.
-/

deriving instance DecidableEq for Except

namespace CargoWeb

/-- Target kinds, mirroring `cargo_shim::TargetKind` as used by the source. -/
inductive TargetKind where
  | Lib
  | Bin
  | Example
  | Bench
  | Test
deriving DecidableEq

/-- Build types, mirroring `cargo_shim::BuildType`. -/
inductive BuildType where
  | Debug
  | Release
deriving DecidableEq

/-- Compilation profiles, mirroring `cargo_shim::Profile` (`Main` vs `Test`). -/
inductive Profile where
  | Main
  | Test
deriving DecidableEq

/-- Message formats, mirroring `cargo_shim::MessageFormat`. -/
inductive MessageFormat where
  | Human
  | Json
deriving DecidableEq

/-- One compilation target of a package (`cargo_shim::CargoTarget`). -/
structure CargoTarget where
  kind : TargetKind
  name : String
deriving DecidableEq

/-- One package of a project (`cargo_shim::CargoPackage`). -/
structure CargoPackage where
  name : String
  targets : List CargoTarget
deriving DecidableEq

/-- A project: its packages plus the designated default package returned by
`CargoProject::default_package()` (supplied by `cargo_shim`, external to the
embedded files). -/
structure CargoProject where
  packages : List CargoPackage
  default_package : CargoPackage
deriving DecidableEq

/-- Errors, modelled from the variants the embedded sources construct
(`Error::ConfigurationError`, `Error::EnvironmentError` in `cmd_test.rs`,
`Error::BuildError` in `build.rs`); the `error` module itself is external. -/
inductive Error where
  | ConfigurationError (msg : String)
  | EnvironmentError (msg : String)
  | BuildError
deriving DecidableEq

/-- The command-line flags the embedded code reads from `clap::ArgMatches`:
one field per `is_present`/`value_of` key.  `example` is escaped because it
is a Lean keyword. -/
structure Matches where
  release : Bool
  target_webasm : Bool
  target_webasm_emscripten : Bool
  use_system_emscripten : Bool
  message_format : Option String
  verbose : Bool
  package : Option String
  lib : Bool
  bin : Option String
  «example» : Option String
  bench : Option String
  features : Option String
  no_default_features : Bool
  all_features : Bool
  nodejs : Bool
  no_run : Bool
deriving DecidableEq

/-- Project-declared configuration (`Web.toml`); only `link-args` is read by
the embedded code. -/
structure Config where
  link_args : Option (List String)
deriving DecidableEq

/-- Result of `initialize_emscripten` (external provisioner): the paths it
reports when it succeeds. -/
structure Emscripten where
  emscripten_path : String
  emscripten_llvm_path : String
  binaryen_path : Option String
deriving DecidableEq

/-- `BuildArgsMatcher::requested_build_type`: `--release` means `Release`,
otherwise `Debug`. -/
def requested_build_type (m : Matches) : BuildType :=
  if m.release then BuildType.Release else BuildType.Debug

/-- `BuildArgsMatcher::targeting_emscripten_wasm`. -/
def targeting_emscripten_wasm (m : Matches) : Bool :=
  m.target_webasm_emscripten

/-- `BuildArgsMatcher::targeting_native_wasm`. -/
def targeting_native_wasm (m : Matches) : Bool :=
  m.target_webasm

/-- `BuildArgsMatcher::targeting_emscripten_asmjs`. -/
def targeting_emscripten_asmjs (m : Matches) : Bool :=
  !targeting_emscripten_wasm m && !targeting_native_wasm m

/-- `BuildArgsMatcher::targeting_wasm`. -/
def targeting_wasm (m : Matches) : Bool :=
  targeting_emscripten_wasm m || targeting_native_wasm m

/-- `BuildArgsMatcher::targeting_emscripten`. -/
def targeting_emscripten (m : Matches) : Bool :=
  targeting_emscripten_wasm m || targeting_emscripten_asmjs m

/-- `BuildArgsMatcher::message_format`; a `message-format` value other than
`human`/`json` is rejected by the CLI parser, so the source marks that arm
unreachable and we fold it into `Human`. -/
def message_format (m : Matches) : MessageFormat :=
  match m.message_format with
  | some name => if name = "human" then MessageFormat.Human
                 else if name = "json" then MessageFormat.Json
                 else MessageFormat.Human
  | none => MessageFormat.Human

/-- The native-wasm override of `BuildArgsMatcher::build_type`: force a
`Debug` request to `Release` on the native WebAssembly triplet. -/
def resolve_build_type (native : Bool) (bt : BuildType) : BuildType :=
  if native && bt == BuildType.Debug then BuildType.Release else bt

/-- `BuildArgsMatcher::build_type`: the requested type, run through the
native-wasm override. -/
def build_type (m : Matches) : BuildType :=
  resolve_build_type (targeting_native_wasm m) (requested_build_type m)

/-- The diagnostic lines `BuildArgsMatcher::build_type` prints to stderr when
it forces a release build. -/
def build_type_warnings (m : Matches) : List String :=
  if targeting_native_wasm m && requested_build_type m == BuildType.Debug then
    ["warning: debug builds on the wasm-unknown-unknown are currently totally broken",
     "         forcing a release build"]
  else []

/-- `BuildArgsMatcher::package`: look the `--package` name up among the
packages of the project. -/
def package (m : Matches) (proj : CargoProject) : Except Error (Option CargoPackage) :=
  match m.package with
  | some name =>
      match proj.packages.find? (fun p => p.name == name) with
      | none => Except.error (Error.ConfigurationError ("package `" ++ name ++ "` not found"))
      | some p => Except.ok (some p)
  | none => Except.ok none

/-- `BuildArgsMatcher::package_or_default`. -/
def package_or_default (m : Matches) (proj : CargoProject) : Except Error CargoPackage :=
  match package m proj with
  | Except.error e => Except.error e
  | Except.ok (some p) => Except.ok p
  | Except.ok none => Except.ok proj.default_package

/-- `BuildArgsMatcher::target`: resolve an explicit selector flag
(`--lib` / `--bin` / `--example` / `--bench`, in that precedence) to a single
target, or report that no selector was given. -/
def target (m : Matches) (pkg : CargoPackage) : Except Error (Option CargoTarget) :=
  if m.lib then
    match pkg.targets.find? (fun t => t.kind == TargetKind.Lib) with
    | none => Except.error (Error.ConfigurationError "no library targets found")
    | some t => Except.ok (some t)
  else
    match m.bin with
    | some name =>
        match pkg.targets.find? (fun t => t.kind == TargetKind.Bin && t.name == name) with
        | none => Except.error (Error.ConfigurationError ("no bin target named `" ++ name ++ "`"))
        | some t => Except.ok (some t)
    | none =>
        match m.«example» with
        | some name =>
            match pkg.targets.find? (fun t => t.kind == TargetKind.Example && t.name == name) with
            | none => Except.error (Error.ConfigurationError ("no example target named `" ++ name ++ "`"))
            | some t => Except.ok (some t)
        | none =>
            match m.bench with
            | some name =>
                match pkg.targets.find? (fun t => t.kind == TargetKind.Bench && t.name == name) with
                | none => Except.error (Error.ConfigurationError ("no bench target named `" ++ name ++ "`"))
                | some t => Except.ok (some t)
            | none => Except.ok none

/-- `BuildArgsMatcher::target_or_select`: a single explicitly selected target
if a selector flag was given, otherwise all targets passing `filter`. -/
def target_or_select (m : Matches) (pkg : CargoPackage) (filter : CargoTarget → Bool) :
    Except Error (List CargoTarget) :=
  match target m pkg with
  | Except.error e => Except.error e
  | Except.ok (some t) => Except.ok [t]
  | Except.ok none => Except.ok (pkg.targets.filter filter)

/-- `BuildArgsMatcher::triplet_or_default`: native wasm wins, then Emscripten
wasm, then the asm.js default. -/
def triplet_or_default (m : Matches) : String :=
  if m.target_webasm then "wasm32-unknown-unknown"
  else if m.target_webasm_emscripten then "wasm32-unknown-emscripten"
  else "asmjs-unknown-emscripten"

/-- `BuildArgsMatcher::features`: split the `--features` value on whitespace
(`str::split_whitespace` drops empty pieces). -/
def features (m : Matches) : List String :=
  match m.features with
  | some fs => (fs.split Char.isWhitespace).filter (fun s => s ≠ "")
  | none => []

/-- The Rust call `arg.contains(" ")`: with a single-character pattern this is a
space-character membership test. -/
def containsSpace (s : String) : Bool :=
  s.data.any (fun c => c == ' ')

/-- Outcome of a computation that may terminate the whole process via
`std::process::exit`. -/
inductive ProcOut (α : Type) where
  | exit (code : Nat)
  | ok (a : α)
deriving DecidableEq

/-- The build configuration handed to the toolchain
(`cargo_shim::BuildConfig`); `build_target` keeps the (target, profile) pair
that `target_to_build_target` encodes. -/
structure BuildConfig where
  build_target : CargoTarget × Profile
  build_type : BuildType
  triplet : Option String
  package : Option String
  features : List String
  no_default_features : Bool
  enable_all_features : Bool
  extra_paths : List String
  extra_rustflags : List String
  extra_environment : List (String × String)
  message_format : MessageFormat
  is_verbose : Bool
deriving DecidableEq

/-- `Builder` wraps the finished `BuildConfig` (source: `struct Builder(BuildConfig)`). -/
structure Builder where
  config : BuildConfig
deriving DecidableEq

/-- The rustflags pushed by the Emscripten branch of `prepare_builder`:
`-C link-arg=-s -C link-arg=NO_EXIT_RUNTIME=<b>` where `<b>` is
`exit_runtime = (profile == Profile::Main)` printed as an integer. -/
def emscFlags (m : Matches) (profile : Profile) : List String :=
  if targeting_emscripten m then
    ["-C", "link-arg=-s", "-C",
     "link-arg=NO_EXIT_RUNTIME=" ++ (if profile == Profile.Main then "1" else "0")]
  else []

/-- The search paths pushed by the Emscripten branch of `prepare_builder`. -/
def emscPaths (m : Matches) (emsc : Option Emscripten) : List String :=
  if targeting_emscripten m then
    match emsc with
    | some e => [e.emscripten_path]
    | none => []
  else []

/-- The environment pairs the Emscripten branch of `prepare_builder` exports
from a successful `initialize_emscripten` result. -/
def emscriptenEnv (emsc : Option Emscripten) : List (String × String) :=
  match emsc with
  | none => []
  | some e =>
      [("EMSCRIPTEN", e.emscripten_path),
       ("EMSCRIPTEN_FASTCOMP", e.emscripten_llvm_path),
       ("LLVM", e.emscripten_llvm_path)] ++
      (match e.binaryen_path with
       | some b => [("BINARYEN", b)]
       | none => [])

/-- The environment pairs of the Emscripten branch of `prepare_builder`, guarded by
`targeting_emscripten`. -/
def emscEnv (m : Matches) (emsc : Option Emscripten) : List (String × String) :=
  if targeting_emscripten m then emscriptenEnv emsc else []

/-- The `CARGO_INCREMENTAL=0` override of `prepare_builder`: only on the
native wasm triplet, and only when the variable was already set externally. -/
def incrEnv (m : Matches) (cargo_incremental_set : Bool) : List (String × String) :=
  if targeting_native_wasm m && cargo_incremental_set then
    [("CARGO_INCREMENTAL", "0")]
  else []

/-- The `-C debuginfo=2` injection of `prepare_builder`: native wasm triplet
with a requested (pre-override) `Debug` build type. -/
def debugFlags (m : Matches) : List String :=
  if targeting_native_wasm m && requested_build_type m == BuildType.Debug then
    ["-C", "debuginfo=2"]
  else []

/-- The `link-args` loop of `prepare_builder`: append each declared argument
as a `-C` / `link-arg=<arg>` pair onto `acc`, aborting the process with
status 101 as soon as an argument contains a space. -/
def pushLinkArgs (acc : List String) : List String → ProcOut (List String)
  | [] => ProcOut.ok acc
  | arg :: rest =>
      if containsSpace arg then ProcOut.exit 101
      else pushLinkArgs (acc ++ ["-C", "link-arg=" ++ arg]) rest

/-- The flag pairs the `link-args` loop appends when no argument has a space. -/
def linkArgFlags (args : List String) : List String :=
  args.flatMap (fun a => ["-C", "link-arg=" ++ a])

/-- `BuildArgsMatcher::prepare_builder`.  The `initialize_emscripten` result
and the presence of an external `CARGO_INCREMENTAL` variable are oracle
inputs; everything else follows the source: Emscripten paths/environment and
the `NO_EXIT_RUNTIME` flag pair, then the user `link-args` (a space aborts the
process with status 101), then the native-wasm `debuginfo` flag and
incremental-compilation override, composed into the final `BuildConfig`. -/
def prepare_builder (m : Matches) (cfg : Config) (pkg : CargoPackage) (t : CargoTarget)
    (profile : Profile) (emsc : Option Emscripten) (cargo_incremental_set : Bool) :
    ProcOut Builder :=
  match pushLinkArgs (emscFlags m profile) (cfg.link_args.getD []) with
  | ProcOut.exit c => ProcOut.exit c
  | ProcOut.ok flags =>
      ProcOut.ok ⟨{
        build_target := (t, profile),
        build_type := build_type m,
        triplet := some (triplet_or_default m),
        package := some pkg.name,
        features := features m,
        no_default_features := m.no_default_features,
        enable_all_features := m.all_features,
        extra_paths := emscPaths m emsc,
        extra_rustflags := flags ++ debugFlags m,
        extra_environment := emscEnv m emsc ++ incrEnv m cargo_incremental_set,
        message_format := message_format m,
        is_verbose := m.verbose }⟩

/-- The result of a successful toolchain invocation (`cargo_shim::CargoResult`),
reduced to the target it built; artifact paths are file-system data outside
this state. -/
structure CargoResult where
  target : CargoTarget
deriving DecidableEq

/-- `Builder::run`: invoke the toolchain (oracle `buildOk` says whether the
invocation for this target succeeds, the wasm post-processing only extends
the artifact list); a failed result becomes an opaque `Error::BuildError`. -/
def Builder.run (buildOk : CargoTarget → Bool) (b : Builder) : Except Error CargoResult :=
  if buildOk b.config.build_target.1 then
    Except.ok ⟨b.config.build_target.1⟩
  else
    Except.error Error.BuildError

/-- The runtime-executable probe at the top of `test_in_nodejs`:
`node.exe` (Windows only), then `nodejs`, then `node`; if none exists the run
reports an `EnvironmentError`. -/
def find_nodejs (windows : Bool) (cmdExists : String → Bool) : Except Error String :=
  if windows && cmdExists "node.exe" then Except.ok "node.exe"
  else if cmdExists "nodejs" then Except.ok "nodejs"
  else if cmdExists "node" then Except.ok "node"
  else Except.error (Error.EnvironmentError "node.js not found; please install it!")

/-- `test_in_nodejs`: probe for the runtime, run the artifact (oracle
`status` is `status.is_ok()` of the spawned process), and OR the failure into
the aggregate flag.  The artifact lookup and working-directory save/restore
are process I/O side effects outside the modelled state. -/
def test_in_nodejs (windows : Bool) (cmdExists : String → Bool) (status : Bool)
    (any_failure : Bool) : Except Error Bool :=
  match find_nodejs windows cmdExists with
  | Except.error e => Except.error e
  | Except.ok _ => Except.ok (any_failure || !status)

/-- Modelled from the spec: `test_in_chromium` (module `test_chromium`, not
under `src/`) hands the build and passthrough arguments to the external
browser test harness, which reports pass/fail; the result is OR-reduced into
the aggregate failure flag exactly like the script-runtime path. -/
def test_in_chromium (status : Bool) (any_failure : Bool) : Except Error Bool :=
  Except.ok (any_failure || !status)

/-- The target filter `command_test` passes to `target_or_select`: kinds
`Lib`, `Bin` and `Test`. -/
def test_filter (t : CargoTarget) : Bool :=
  t.kind == TargetKind.Lib || t.kind == TargetKind.Bin || t.kind == TargetKind.Test

/-- The target-resolution step of `command_test`. -/
def test_targets (m : Matches) (pkg : CargoPackage) : Except Error (List CargoTarget) :=
  target_or_select m pkg test_filter

/-- Outcome of the build loop of `command_test`. -/
inductive BuildOutcome where
  | aborted (code : Nat)
  | failed (e : Error)
  | built (builds : List CargoResult)
deriving DecidableEq

/-- The build loop of `command_test` (`builds.push(builder.run()?)`): for each
target in turn, prepare a builder (which may abort the process on a bad
link-arg) and run it, stopping at the first failure.  The first component
records, in order, the targets for which the Build Executor was actually
invoked. -/
def buildLoop (m : Matches) (cfg : Config) (pkg : CargoPackage) (emsc : Option Emscripten)
    (inc : Bool) (buildOk : CargoTarget → Bool) :
    List CargoTarget → List CargoTarget × BuildOutcome
  | [] => ([], BuildOutcome.built [])
  | t :: rest =>
      match prepare_builder m cfg pkg t Profile.Test emsc inc with
      | ProcOut.exit c => ([], BuildOutcome.aborted c)
      | ProcOut.ok builder =>
          match Builder.run buildOk builder with
          | Except.error e => ([t], BuildOutcome.failed e)
          | Except.ok r =>
              match buildLoop m cfg pkg emsc inc buildOk rest with
              | (att, BuildOutcome.built rs) => (t :: att, BuildOutcome.built (r :: rs))
              | (att, out) => (t :: att, out)

/-- The per-build test loop of `command_test`: run each build through the
chosen runtime, threading the aggregate `any_failure` flag; a runtime-level
error propagates via `?`. -/
def testLoop (windows : Bool) (cmdExists : String → Bool) (runStatus : CargoTarget → Bool)
    (useNodejs : Bool) : List CargoResult → Bool → Except Error Bool
  | [], any_failure => Except.ok any_failure
  | b :: rest, any_failure =>
      match (if useNodejs then test_in_nodejs windows cmdExists (runStatus b.target) any_failure
             else test_in_chromium (runStatus b.target) any_failure) with
      | Except.error e => Except.error e
      | Except.ok af => testLoop windows cmdExists runStatus useNodejs rest af

/-- Outcome of `command_test`: a `process::exit`, an `Err(...)` return, or a
normal `Ok(())` return. -/
inductive CmdResult where
  | exited (code : Nat)
  | errored (e : Error)
  | completed
deriving DecidableEq

/-- `command_test`: the native-wasm/`--nodejs` compatibility check, package
and target resolution, the fail-fast build loop (profile `Test`), the
`--no-run` early `exit(0)`, the runtime test loop, and the final aggregate
exit.  `windows`/`cmdExists` feed the runtime probe, `emsc`/`inc` feed
`prepare_builder`, `buildOk`/`runStatus` are the toolchain and test-process
oracles; the project config `cfg` stands for the externally loaded `Web.toml`. -/
def command_test (m : Matches) (proj : CargoProject) (cfg : Config) (windows : Bool)
    (cmdExists : String → Bool) (emsc : Option Emscripten) (inc : Bool)
    (buildOk : CargoTarget → Bool) (runStatus : CargoTarget → Bool) : CmdResult :=
  if targeting_native_wasm m && !m.nodejs then
    CmdResult.errored (Error.ConfigurationError
      "running tests for the native wasm target is currently only supported with `--nodejs`")
  else
    match package_or_default m proj with
    | Except.error e => CmdResult.errored e
    | Except.ok pkg =>
        match test_targets m pkg with
        | Except.error e => CmdResult.errored e
        | Except.ok targets =>
            match (buildLoop m cfg pkg emsc inc buildOk targets).2 with
            | BuildOutcome.aborted c => CmdResult.exited c
            | BuildOutcome.failed e => CmdResult.errored e
            | BuildOutcome.built builds =>
                if m.no_run then CmdResult.exited 0
                else
                  match testLoop windows cmdExists runStatus m.nodejs builds false with
                  | Except.error e => CmdResult.errored e
                  | Except.ok any_failure =>
                      if any_failure then CmdResult.exited 101 else CmdResult.completed

/-- Character-list version of "the first list is an initial segment of the
second", used to recognise the runtime-exit linker flag. -/
def leadsWith : List Char → List Char → Bool
  | [], _ => true
  | _ :: _, [] => false
  | p :: ps, c :: cs => p == c && leadsWith ps cs

/-- Recogniser for the runtime-exit linker flag `link-arg=NO_EXIT_RUNTIME=<b>`. -/
def isNoExitFlag (s : String) : Bool :=
  leadsWith "link-arg=NO_EXIT_RUNTIME=".data s.data

/-- The `BuildConfig` that `prepare_builder` produces when no declared link
argument contains a space, with the rustflags written out as the Emscripten
block, then the user link-arg pairs, then the debug-info block. -/
def built_config (m : Matches) (cfg : Config) (pkg : CargoPackage) (t : CargoTarget)
    (profile : Profile) (emsc : Option Emscripten) (cargo_incremental_set : Bool) :
    BuildConfig :=
  { build_target := (t, profile),
    build_type := build_type m,
    triplet := some (triplet_or_default m),
    package := some pkg.name,
    features := features m,
    no_default_features := m.no_default_features,
    enable_all_features := m.all_features,
    extra_paths := emscPaths m emsc,
    extra_rustflags := emscFlags m profile ++ linkArgFlags (cfg.link_args.getD []) ++ debugFlags m,
    extra_environment := emscEnv m emsc ++ incrEnv m cargo_incremental_set,
    message_format := message_format m,
    is_verbose := m.verbose }

/-- Whether a `prepare_builder` outcome is the process abort with status 101. -/
def aborted101 : ProcOut Builder → Bool
  | ProcOut.exit 101 => true
  | _ => false

/-- Extra rustflags of a successful `prepare_builder` outcome. -/
def rustflagsOf : ProcOut Builder → List String
  | ProcOut.ok b => b.config.extra_rustflags
  | ProcOut.exit _ => []

/-- Effective build type of a successful `prepare_builder` outcome. -/
def buildTypeOf : ProcOut Builder → Option BuildType
  | ProcOut.ok b => some b.config.build_type
  | ProcOut.exit _ => none

/-- Whether a runtime-probe outcome is a `ConfigurationError`. -/
def isConfigErrorStr : Except Error String → Bool
  | Except.error (Error.ConfigurationError _) => true
  | _ => false

/-- A `Matches` value with every flag absent. -/
def noFlags : Matches :=
  { release := false, target_webasm := false, target_webasm_emscripten := false,
    use_system_emscripten := false, message_format := none, verbose := false,
    package := none, lib := false, bin := none, «example» := none, bench := none,
    features := none, no_default_features := false, all_features := false,
    nodejs := false, no_run := false }

/-- Concrete targets used by the witnesses and counterexamples. -/
def exTarget : CargoTarget := ⟨TargetKind.Example, "ex"⟩

def libT : CargoTarget := ⟨TargetKind.Lib, "l"⟩

def binT : CargoTarget := ⟨TargetKind.Bin, "b"⟩

def testT : CargoTarget := ⟨TargetKind.Test, "t"⟩

/-- A package holding only an example target. -/
def pkgEx : CargoPackage := ⟨"p", [exTarget]⟩

/-- A package holding a library and an example target. -/
def pkgMix : CargoPackage := ⟨"p", [libT, exTarget]⟩

/-- A package holding library, binary and test targets. -/
def pkgMix3 : CargoPackage := ⟨"p", [libT, binT, testT]⟩

/-- A package holding library and test targets. -/
def pkg2 : CargoPackage := ⟨"p", [libT, testT]⟩

/-- Projects wrapping the concrete packages. -/
def projEx : CargoProject := ⟨[pkgEx], pkgEx⟩

def projMix : CargoProject := ⟨[pkgMix], pkgMix⟩

def projMix3 : CargoProject := ⟨[pkgMix3], pkgMix3⟩

def proj2 : CargoProject := ⟨[pkg2], pkg2⟩

/-- Matches with only `--example ex`. -/
def mEx : Matches := { noFlags with «example» := some "ex" }

/-- Matches with the native-wasm flag, `--release` and `--nodejs`. -/
def mNative : Matches := { noFlags with target_webasm := true, release := true, nodejs := true }

/-- Matches with the native-wasm flag and `--nodejs`, default (debug) build type. -/
def mNativeDebug : Matches := { noFlags with target_webasm := true, nodejs := true }

/-- Matches with the native-wasm flag and `--no-run` but without `--nodejs`. -/
def mC4 : Matches := { noFlags with target_webasm := true, no_run := true }

/-- Matches with `--no-run` only. -/
def mNoRun : Matches := { noFlags with no_run := true }

/-- Matches with `--nodejs` only. -/
def mNode : Matches := { noFlags with nodejs := true }

/-- A configuration with no declared link arguments. -/
def cfgNone : Config := ⟨none⟩

/-- Matches with both the native-wasm and Emscripten-wasm flags, plus `--nodejs`. -/
def mBoth : Matches :=
  { noFlags with target_webasm := true, target_webasm_emscripten := true, nodejs := true }

/-- A concrete Emscripten provisioning result. -/
def emsdk : Emscripten := ⟨"emsdk", "emsdk-llvm", none⟩

/-- Toolchain oracle that builds every target successfully. -/
def allOk : CargoTarget → Bool := fun _ => true

/-- Toolchain oracle that builds only library targets successfully. -/
def bOk : CargoTarget → Bool := fun t => t.kind == TargetKind.Lib

/-- Command prober that finds no executable. -/
def noCmd : String → Bool := fun _ => false

/-- Command prober that finds every executable. -/
def anyCmd : String → Bool := fun _ => true

/-- Run-status oracle under which exactly the run of the library target fails. -/
def failLib : CargoTarget → Bool := fun t => !(t.kind == TargetKind.Lib)

/-! Helper lemmas shared by the claim theorems. -/

theorem link_arg_ne_debuginfo (s : String) : ("link-arg=" ++ s) ≠ "debuginfo=2" := by
  intro h
  have h2 : ("link-arg=" ++ s).data = "debuginfo=2".data := by rw [h]
  rw [String.data_append] at h2
  simp [String.data] at h2

theorem pushLinkArgs_ok (args : List String)
    (h : ∀ a ∈ args, containsSpace a = false) (acc : List String) :
    pushLinkArgs acc args = ProcOut.ok (acc ++ linkArgFlags args) := by
  induction args generalizing acc with
  | nil => simp [pushLinkArgs, linkArgFlags]
  | cons a as ih =>
      have ha : containsSpace a = false := h a (List.mem_cons_self a as)
      have hrest : ∀ x ∈ as, containsSpace x = false :=
        fun x hx => h x (List.mem_cons_of_mem a hx)
      simp [pushLinkArgs, ha, ih hrest, linkArgFlags, List.flatMap_cons, List.append_assoc]

theorem pushLinkArgs_exit (args : List String)
    (h : ∃ a ∈ args, containsSpace a = true) (acc : List String) :
    pushLinkArgs acc args = ProcOut.exit 101 := by
  induction args generalizing acc with
  | nil => simp at h
  | cons a as ih =>
      by_cases ha : containsSpace a = true
      · simp [pushLinkArgs, ha]
      · have ha' : containsSpace a = false := Bool.not_eq_true _ ▸ eq_false_of_ne_true ha
        have hrest : ∃ x ∈ as, containsSpace x = true := by
          rcases h with ⟨x, hx, hxs⟩
          rcases List.mem_cons.mp hx with rfl | hmem
          · exact absurd hxs ha
          · exact ⟨x, hmem, hxs⟩
        simp [pushLinkArgs, ha', ih hrest]

theorem prepare_builder_ok (m : Matches) (cfg : Config) (pkg : CargoPackage)
    (t : CargoTarget) (profile : Profile) (emsc : Option Emscripten) (inc : Bool)
    (h : ∀ a ∈ cfg.link_args.getD [], containsSpace a = false) :
    prepare_builder m cfg pkg t profile emsc inc =
      ProcOut.ok ⟨built_config m cfg pkg t profile emsc inc⟩ := by
  unfold prepare_builder
  rw [pushLinkArgs_ok _ h]
  simp [built_config, List.append_assoc]

theorem prepare_builder_exit (m : Matches) (cfg : Config) (pkg : CargoPackage)
    (t : CargoTarget) (profile : Profile) (emsc : Option Emscripten) (inc : Bool)
    (h : ∃ a ∈ cfg.link_args.getD [], containsSpace a = true) :
    prepare_builder m cfg pkg t profile emsc inc = ProcOut.exit 101 := by
  unfold prepare_builder
  rw [pushLinkArgs_exit _ h]

theorem debuginfo_not_mem_emscFlags (m : Matches) (profile : Profile) :
    "debuginfo=2" ∉ emscFlags m profile := by
  unfold emscFlags
  split
  · cases profile <;> decide
  · simp

theorem debuginfo_not_mem_linkArgFlags (args : List String) :
    "debuginfo=2" ∉ linkArgFlags args := by
  induction args with
  | nil => simp [linkArgFlags]
  | cons a as ih =>
      simp only [linkArgFlags, List.flatMap_cons, List.mem_append] at *
      rintro (h | h)
      · rcases List.mem_cons.mp h with h1 | h1
        · exact absurd h1.symm (by decide)
        · rcases List.mem_singleton.mp h1 with h2
          exact link_arg_ne_debuginfo a h2.symm
      · exact ih h

theorem mem_debugFlags (m : Matches) :
    "debuginfo=2" ∈ debugFlags m ↔
      (targeting_native_wasm m = true ∧ requested_build_type m = BuildType.Debug) := by
  unfold debugFlags
  split
  · rename_i h
    simp only [Bool.and_eq_true, beq_iff_eq] at h
    simp [h]
  · rename_i h
    simp only [Bool.and_eq_true, beq_iff_eq] at h
    simpa using h

theorem countP_linkArgFlags (args : List String)
    (h : ∀ a ∈ args, isNoExitFlag ("link-arg=" ++ a) = false) :
    (linkArgFlags args).countP isNoExitFlag = 0 := by
  induction args with
  | nil => simp [linkArgFlags]
  | cons a as ih =>
      have ha : isNoExitFlag ("link-arg=" ++ a) = false := h a (List.mem_cons_self a as)
      have hrest := ih fun x hx => h x (List.mem_cons_of_mem a hx)
      have hC : isNoExitFlag "-C" = false := by decide
      show List.countP isNoExitFlag ("-C" :: ("link-arg=" ++ a) :: linkArgFlags as) = 0
      simp [List.countP_cons, ha, hrest, hC]

theorem countP_debugFlags (m : Matches) :
    (debugFlags m).countP isNoExitFlag = 0 := by
  unfold debugFlags
  split <;> decide

theorem buildLoop_all_ok (m : Matches) (cfg : Config) (pkg : CargoPackage)
    (emsc : Option Emscripten) (inc : Bool) (buildOk : CargoTarget → Bool)
    (hspace : ∀ a ∈ cfg.link_args.getD [], containsSpace a = false)
    (ts : List CargoTarget) (hok : ∀ t ∈ ts, buildOk t = true) :
    buildLoop m cfg pkg emsc inc buildOk ts =
      (ts, BuildOutcome.built (ts.map (fun t => (⟨t⟩ : CargoResult)))) := by
  induction ts with
  | nil => simp [buildLoop]
  | cons t rest ih =>
      have ht : buildOk t = true := hok t (List.mem_cons_self t rest)
      have hrest := ih fun x hx => hok x (List.mem_cons_of_mem t hx)
      rw [buildLoop, prepare_builder_ok m cfg pkg t Profile.Test emsc inc hspace]
      simp [Builder.run, built_config, ht, hrest]

theorem buildLoop_firstfail (m : Matches) (cfg : Config) (pkg : CargoPackage)
    (emsc : Option Emscripten) (inc : Bool) (buildOk : CargoTarget → Bool)
    (hspace : ∀ a ∈ cfg.link_args.getD [], containsSpace a = false)
    (pre : List CargoTarget) (hpre : ∀ t ∈ pre, buildOk t = true)
    (bad : CargoTarget) (hbad : buildOk bad = false) (post : List CargoTarget) :
    buildLoop m cfg pkg emsc inc buildOk (pre ++ bad :: post) =
      (pre ++ [bad], BuildOutcome.failed Error.BuildError) := by
  induction pre with
  | nil =>
      simp only [List.nil_append]
      rw [buildLoop, prepare_builder_ok m cfg pkg bad Profile.Test emsc inc hspace]
      simp [Builder.run, built_config, hbad]
  | cons p ps ih =>
      have hp : buildOk p = true := hpre p (List.mem_cons_self p ps)
      have hps := ih fun x hx => hpre x (List.mem_cons_of_mem p hx)
      simp only [List.cons_append]
      rw [buildLoop, prepare_builder_ok m cfg pkg p Profile.Test emsc inc hspace]
      simp [Builder.run, built_config, hp, hps]

theorem test_in_nodejs_ok (windows : Bool) (cmdExists : String → Bool) (st af : Bool)
    (hnode : cmdExists "node" = true) :
    test_in_nodejs windows cmdExists st af = Except.ok (af || !st) := by
  unfold test_in_nodejs find_nodejs
  by_cases h1 : (windows && cmdExists "node.exe") = true
  · simp [h1]
  · by_cases h2 : cmdExists "nodejs" = true
    · simp [h1, h2]
    · simp [h1, h2, hnode]

theorem testLoop_node (windows : Bool) (cmdExists : String → Bool)
    (runStatus : CargoTarget → Bool) (hnode : cmdExists "node" = true)
    (bs : List CargoResult) (af : Bool) :
    testLoop windows cmdExists runStatus true bs af =
      Except.ok (af || bs.any (fun b => !(runStatus b.target))) := by
  induction bs generalizing af with
  | nil => simp [testLoop]
  | cons b rest ih =>
      rw [testLoop]
      simp [test_in_nodejs_ok windows cmdExists (runStatus b.target) af hnode, ih,
        List.any_cons, Bool.or_assoc]

theorem emscFlags_eq_of_targeting (m : Matches) (profile : Profile)
    (h : targeting_emscripten m = true) :
    emscFlags m profile =
      ["-C", "link-arg=-s", "-C",
       "link-arg=NO_EXIT_RUNTIME=" ++ (if profile == Profile.Main then "1" else "0")] := by
  unfold emscFlags
  rw [if_pos h]

theorem emscFlags_eq_of_not_targeting (m : Matches) (profile : Profile)
    (h : targeting_emscripten m = false) :
    emscFlags m profile = [] := by
  unfold emscFlags
  simp [h]

theorem command_test_built (m : Matches) (proj : CargoProject) (cfg : Config)
    (windows : Bool) (cmdExists : String → Bool) (emsc : Option Emscripten) (inc : Bool)
    (buildOk : CargoTarget → Bool) (runStatus : CargoTarget → Bool)
    (pkg : CargoPackage) (ts : List CargoTarget)
    (hcompat : (targeting_native_wasm m && !m.nodejs) = false)
    (hpkg : package_or_default m proj = Except.ok pkg)
    (hts : test_targets m pkg = Except.ok ts)
    (hspace : ∀ a ∈ cfg.link_args.getD [], containsSpace a = false)
    (hbuild : ∀ t ∈ ts, buildOk t = true) :
    command_test m proj cfg windows cmdExists emsc inc buildOk runStatus =
      (if m.no_run then CmdResult.exited 0
       else
         match testLoop windows cmdExists runStatus m.nodejs
             (ts.map (fun t => (⟨t⟩ : CargoResult))) false with
         | Except.error e => CmdResult.errored e
         | Except.ok any_failure =>
             if any_failure then CmdResult.exited 101 else CmdResult.completed) := by
  simp only [command_test, hcompat, hpkg, hts,
    buildLoop_all_ok m cfg pkg emsc inc buildOk hspace ts hbuild,
    Bool.false_eq_true, if_false]

/-! Claim theorems. -/

/-- C1: counterexample to the claim as stated.  With `--example ex` supplied,
the target resolution of the test command returns exactly the Example-kind target
(the explicit selector bypasses the Lib/Bin/Test filter), and the build loop
then builds it; so the set of targets built and run as tests is not contained
in kinds Lib, Bin, Test for every combination of selector flags. -/
theorem C1_counterexample :
    test_targets mEx pkgEx = Except.ok [exTarget] ∧
    exTarget.kind = TargetKind.Example ∧
    (buildLoop mEx ⟨none⟩ pkgEx none false allOk [exTarget]).1 = [exTarget] := by
  decide

/-- C1 (amended): when no explicit selector flag is supplied (no `--lib`,
`--bin`, `--example`, `--bench`), every target resolved by the test command
has kind Lib, Bin or Test; an explicit example or benchmark selector can
instead make an Example/Bench target be built and run as a test. -/
theorem C1_amended (m : Matches) (pkg : CargoPackage) (ts : List CargoTarget)
    (hlib : m.lib = false) (hbin : m.bin = none) (hex : m.«example» = none)
    (hbench : m.bench = none) (hts : test_targets m pkg = Except.ok ts)
    (t : CargoTarget) (ht : t ∈ ts) :
    t.kind = TargetKind.Lib ∨ t.kind = TargetKind.Bin ∨ t.kind = TargetKind.Test := by
  have hts' : ts = pkg.targets.filter test_filter := by
    simp [test_targets, target_or_select, target, hlib, hbin, hex, hbench] at hts
    exact hts.symm
  rw [hts'] at ht
  have hf : test_filter t = true := List.of_mem_filter ht
  simp only [test_filter, Bool.or_eq_true, beq_iff_eq] at hf
  tauto

/-- C1 (witness): with no selector flags, the mixed package resolves to its
library target alone, whose kind is in the allowed set. -/
theorem C1_witness :
    (noFlags.lib = false ∧ noFlags.bin = none ∧ noFlags.«example» = none ∧
     noFlags.bench = none ∧ test_targets noFlags pkgMix = Except.ok [libT] ∧ libT ∈ [libT]) ∧
    (libT.kind = TargetKind.Lib ∨ libT.kind = TargetKind.Bin ∨ libT.kind = TargetKind.Test) :=
  ⟨by decide,
   C1_amended noFlags pkgMix [libT] (by decide) (by decide) (by decide) (by decide)
     (by decide) libT (by decide)⟩

/-- C2: counterexample to the claim as stated.  The declared link argument
contains whitespace (a tab) but no space character, and `prepare_builder` does
not abort: it appends the flag pair and produces a builder. -/
theorem C2_counterexample :
    ("a\tb".data.any Char.isWhitespace) = true ∧
    aborted101 (prepare_builder mNative ⟨some ["a\tb"]⟩ pkgEx exTarget Profile.Test none false) = false ∧
    rustflagsOf (prepare_builder mNative ⟨some ["a\tb"]⟩ pkgEx exTarget Profile.Test none false) =
      ["-C", "link-arg=a\tb"] := by
  decide

/-- C2 (amended): a declared link argument containing a *space character*
makes `prepare_builder` abort the process with status 101 before any builder
exists (so the toolchain is never invoked: the build loop records no executor
invocation); when no argument contains a space, each argument is appended as
a distinct `-C`/`link-arg=<arg>` flag pair and no abort occurs. -/
theorem C2_amended (m : Matches) (cfg : Config) (pkg : CargoPackage) (t : CargoTarget)
    (profile : Profile) (emsc : Option Emscripten) (inc : Bool)
    (buildOk : CargoTarget → Bool) (t0 : CargoTarget) (rest : List CargoTarget) :
    ((∃ a ∈ cfg.link_args.getD [], containsSpace a = true) →
        prepare_builder m cfg pkg t profile emsc inc = ProcOut.exit 101 ∧
        buildLoop m cfg pkg emsc inc buildOk (t0 :: rest) = ([], BuildOutcome.aborted 101)) ∧
    ((∀ a ∈ cfg.link_args.getD [], containsSpace a = false) →
        prepare_builder m cfg pkg t profile emsc inc =
          ProcOut.ok ⟨built_config m cfg pkg t profile emsc inc⟩) := by
  constructor
  · intro h
    refine ⟨prepare_builder_exit m cfg pkg t profile emsc inc h, ?_⟩
    rw [buildLoop, prepare_builder_exit m cfg pkg t0 Profile.Test emsc inc h]
  · intro h
    exact prepare_builder_ok m cfg pkg t profile emsc inc h

/-- C2 (witness): a space-bearing list aborts with 101 and an argument without
a space is appended as its own flag pair. -/
theorem C2_witness :
    ((∃ a ∈ (Config.mk (some ["a b"])).link_args.getD [], containsSpace a = true) ∧
     prepare_builder mNative ⟨some ["a b"]⟩ pkgEx exTarget Profile.Test none false =
       ProcOut.exit 101 ∧
     buildLoop mNative ⟨some ["a b"]⟩ pkgEx none false allOk [exTarget] =
       ([], BuildOutcome.aborted 101)) ∧
    ((∀ a ∈ (Config.mk (some ["ab"])).link_args.getD [], containsSpace a = false) ∧
     prepare_builder mNative ⟨some ["ab"]⟩ pkgEx exTarget Profile.Test none false =
       ProcOut.ok ⟨built_config mNative ⟨some ["ab"]⟩ pkgEx exTarget Profile.Test none false⟩) :=
  ⟨⟨by decide,
    (C2_amended mNative ⟨some ["a b"]⟩ pkgEx exTarget Profile.Test none false allOk exTarget []).1
      (by decide)⟩,
   ⟨by decide,
    (C2_amended mNative ⟨some ["ab"]⟩ pkgEx exTarget Profile.Test none false allOk exTarget []).2
      (by decide)⟩⟩

/-- C5: on the native-WebAssembly triplet a requested Debug build type
resolves to Release and the diagnostic warning is emitted, a requested
Release is unchanged, the override is idempotent, and on any other triplet
the requested type is returned unchanged with no warning. -/
theorem C5_build_type_override (m : Matches) :
    (targeting_native_wasm m = true → requested_build_type m = BuildType.Debug →
        build_type m = BuildType.Release ∧ build_type_warnings m ≠ []) ∧
    (targeting_native_wasm m = true → requested_build_type m = BuildType.Release →
        build_type m = BuildType.Release) ∧
    (∀ n b, resolve_build_type n (resolve_build_type n b) = resolve_build_type n b) ∧
    (targeting_native_wasm m = false →
        build_type m = requested_build_type m ∧ build_type_warnings m = []) := by
  refine ⟨?_, ?_, fun n b => by cases n <;> cases b <;> rfl, ?_⟩
  · intro hn hd
    simp [build_type, resolve_build_type, build_type_warnings, hn, hd]
  · intro hn hr
    simp [build_type, resolve_build_type, hn, hr]
  · intro hn
    simp [build_type, resolve_build_type, build_type_warnings, hn]

/-- C5 (witness): with the native-wasm flag and no `--release`, the build
type resolves to Release and the warning is emitted. -/
theorem C5_witness :
    (targeting_native_wasm mNativeDebug = true ∧
     requested_build_type mNativeDebug = BuildType.Debug) ∧
    (build_type mNativeDebug = BuildType.Release ∧ build_type_warnings mNativeDebug ≠ []) :=
  ⟨by decide, (C5_build_type_override mNativeDebug).1 (by decide) (by decide)⟩

/-- C9: counterexample to the claim as stated.  When no runtime executable
name can be located, the run returns `Error::EnvironmentError`, not a
`ConfigurationError`, and its message is `node.js not found; please install it!`. -/
theorem C9_counterexample :
    find_nodejs false noCmd =
      Except.error (Error.EnvironmentError "node.js not found; please install it!") ∧
    isConfigErrorStr (find_nodejs false noCmd) = false ∧
    test_in_nodejs false noCmd true false =
      Except.error (Error.EnvironmentError "node.js not found; please install it!") := by
  decide

/-- C9 (amended): when none of the accepted runtime executable names
(`node.exe` on Windows, `nodejs`, `node`) can be located, the run returns an
`EnvironmentError` carrying the message `node.js not found; please install
it!` — an error return, not a crash or a process abort. -/
theorem C9_amended (windows : Bool) (cmdExists : String → Bool) (st af : Bool)
    (h1 : cmdExists "node.exe" = false) (h2 : cmdExists "nodejs" = false)
    (h3 : cmdExists "node" = false) :
    test_in_nodejs windows cmdExists st af =
      Except.error (Error.EnvironmentError "node.js not found; please install it!") := by
  unfold test_in_nodejs find_nodejs
  simp [h1, h2, h3]

/-- C9 (witness): with a prober that finds nothing, the run reports the
EnvironmentError. -/
theorem C9_witness :
    (noCmd "node.exe" = false ∧ noCmd "nodejs" = false ∧ noCmd "node" = false) ∧
    test_in_nodejs true noCmd true false =
      Except.error (Error.EnvironmentError "node.js not found; please install it!") :=
  ⟨by decide, C9_amended true noCmd true false rfl rfl rfl⟩

/-- C3: for every configuration targeting the Emscripten family, exactly one
runtime-exit linker flag is injected into the extra rustflags, with value
`NO_EXIT_RUNTIME=0` for profile Test and `NO_EXIT_RUNTIME=1` for profile
Main; when the native-WebAssembly flag is set alone, no such flag is
injected.  (The declared link arguments are assumed space-free — otherwise no
configuration is built — and not themselves runtime-exit flags.) -/
theorem C3_no_exit_runtime_flag (m : Matches) (cfg : Config) (pkg : CargoPackage)
    (t : CargoTarget) (profile : Profile) (emsc : Option Emscripten) (inc : Bool)
    (b : Builder)
    (hspace : ∀ a ∈ cfg.link_args.getD [], containsSpace a = false)
    (hcollide : ∀ a ∈ cfg.link_args.getD [], isNoExitFlag ("link-arg=" ++ a) = false)
    (hb : prepare_builder m cfg pkg t profile emsc inc = ProcOut.ok b) :
    (targeting_emscripten m = true →
        b.config.extra_rustflags.countP isNoExitFlag = 1 ∧
        (profile = Profile.Test → "link-arg=NO_EXIT_RUNTIME=0" ∈ b.config.extra_rustflags) ∧
        (profile = Profile.Main → "link-arg=NO_EXIT_RUNTIME=1" ∈ b.config.extra_rustflags)) ∧
    (m.target_webasm = true → m.target_webasm_emscripten = false →
        b.config.extra_rustflags.countP isNoExitFlag = 0) := by
  rw [prepare_builder_ok m cfg pkg t profile emsc inc hspace] at hb
  obtain rfl : (⟨built_config m cfg pkg t profile emsc inc⟩ : Builder) = b := ProcOut.ok.inj hb
  have hflags : (Builder.mk (built_config m cfg pkg t profile emsc inc)).config.extra_rustflags =
      emscFlags m profile ++ linkArgFlags (cfg.link_args.getD []) ++ debugFlags m := rfl
  rw [hflags]
  constructor
  · intro htarg
    have hemsc1 : (emscFlags m profile).countP isNoExitFlag = 1 := by
      rw [emscFlags_eq_of_targeting m profile htarg]
      cases profile <;> decide
    refine ⟨?_, ?_, ?_⟩
    · rw [List.countP_append, List.countP_append, hemsc1,
        countP_linkArgFlags _ hcollide, countP_debugFlags]
    · intro hp
      subst hp
      have hm : "link-arg=NO_EXIT_RUNTIME=0" ∈ emscFlags m Profile.Test := by
        rw [emscFlags_eq_of_targeting m Profile.Test htarg]
        decide
      exact List.mem_append.mpr (Or.inl (List.mem_append.mpr (Or.inl hm)))
    · intro hp
      subst hp
      have hm : "link-arg=NO_EXIT_RUNTIME=1" ∈ emscFlags m Profile.Main := by
        rw [emscFlags_eq_of_targeting m Profile.Main htarg]
        decide
      exact List.mem_append.mpr (Or.inl (List.mem_append.mpr (Or.inl hm)))
  · intro h1 h2
    have htarg : targeting_emscripten m = false := by
      simp [targeting_emscripten, targeting_emscripten_wasm, targeting_emscripten_asmjs,
        targeting_native_wasm, h1, h2]
    rw [List.countP_append, List.countP_append,
      emscFlags_eq_of_not_targeting m profile htarg,
      countP_linkArgFlags _ hcollide, countP_debugFlags]
    decide

/-- C3 (witness): with the default (asm.js-Emscripten) flags and profile
Test, the builder carries exactly one runtime-exit flag, with value 0. -/
theorem C3_witness :
    ((∀ a ∈ cfgNone.link_args.getD [], containsSpace a = false) ∧
     (∀ a ∈ cfgNone.link_args.getD [], isNoExitFlag ("link-arg=" ++ a) = false) ∧
     prepare_builder noFlags cfgNone pkgEx exTarget Profile.Test none false =
       ProcOut.ok ⟨built_config noFlags cfgNone pkgEx exTarget Profile.Test none false⟩ ∧
     targeting_emscripten noFlags = true ∧ Profile.Test = Profile.Test) ∧
    ((Builder.mk (built_config noFlags cfgNone pkgEx exTarget Profile.Test none false)).config.extra_rustflags.countP
        isNoExitFlag = 1 ∧
     "link-arg=NO_EXIT_RUNTIME=0" ∈
       (Builder.mk (built_config noFlags cfgNone pkgEx exTarget Profile.Test none false)).config.extra_rustflags) :=
  ⟨by decide,
   ⟨((C3_no_exit_runtime_flag noFlags cfgNone pkgEx exTarget Profile.Test none false
        ⟨built_config noFlags cfgNone pkgEx exTarget Profile.Test none false⟩
        (by decide) (by decide) (by decide)).1 (by decide)).1,
    ((C3_no_exit_runtime_flag noFlags cfgNone pkgEx exTarget Profile.Test none false
        ⟨built_config noFlags cfgNone pkgEx exTarget Profile.Test none false⟩
        (by decide) (by decide) (by decide)).1 (by decide)).2.1 rfl⟩⟩

/-- C6: counterexample to the claim as stated.  With the native-wasm flag and
no `--release`, the build type of the produced configuration is Release (the
override forces it), which is not the (native, Debug) combination, and yet
`-C debuginfo=2` is injected: the injection keys on the requested, not the
effective, build type. -/
theorem C6_counterexample :
    buildTypeOf (prepare_builder mNativeDebug cfgNone pkgEx exTarget Profile.Test none false) =
      some BuildType.Release ∧
    "debuginfo=2" ∈
      rustflagsOf (prepare_builder mNativeDebug cfgNone pkgEx exTarget Profile.Test none false) := by
  decide

/-- C6 (amended): `-C debuginfo=2` is injected into the extra rustflags
exactly when the native-WebAssembly triplet is targeted and the *requested*
build type (from the flags, before the override) is Debug; in every such
configuration the effective build type recorded is Release, so no
configuration with effective build type Debug carries the flag. -/
theorem C6_amended (m : Matches) (cfg : Config) (pkg : CargoPackage) (t : CargoTarget)
    (profile : Profile) (emsc : Option Emscripten) (inc : Bool) (b : Builder)
    (hspace : ∀ a ∈ cfg.link_args.getD [], containsSpace a = false)
    (hb : prepare_builder m cfg pkg t profile emsc inc = ProcOut.ok b) :
    ("debuginfo=2" ∈ b.config.extra_rustflags ↔
        (targeting_native_wasm m = true ∧ requested_build_type m = BuildType.Debug)) ∧
    (targeting_native_wasm m = true → b.config.build_type = BuildType.Release) := by
  rw [prepare_builder_ok m cfg pkg t profile emsc inc hspace] at hb
  obtain rfl : (⟨built_config m cfg pkg t profile emsc inc⟩ : Builder) = b := ProcOut.ok.inj hb
  constructor
  · show "debuginfo=2" ∈
        emscFlags m profile ++ linkArgFlags (cfg.link_args.getD []) ++ debugFlags m ↔ _
    rw [List.mem_append, List.mem_append]
    constructor
    · rintro ((h | h) | h)
      · exact absurd h (debuginfo_not_mem_emscFlags m profile)
      · exact absurd h (debuginfo_not_mem_linkArgFlags _)
      · exact (mem_debugFlags m).mp h
    · intro h
      exact Or.inr ((mem_debugFlags m).mpr h)
  · intro hn
    show build_type m = BuildType.Release
    cases hr : requested_build_type m <;>
      simp [build_type, resolve_build_type, hn, hr]

/-- C6 (witness): the amended characterisation at a configuration with the
native flag and requested Debug: the flag is present and the effective build
type is Release. -/
theorem C6_witness :
    ((∀ a ∈ cfgNone.link_args.getD [], containsSpace a = false) ∧
     prepare_builder mNativeDebug cfgNone pkgEx exTarget Profile.Test none false =
       ProcOut.ok ⟨built_config mNativeDebug cfgNone pkgEx exTarget Profile.Test none false⟩ ∧
     targeting_native_wasm mNativeDebug = true ∧
     requested_build_type mNativeDebug = BuildType.Debug) ∧
    ("debuginfo=2" ∈
       (Builder.mk (built_config mNativeDebug cfgNone pkgEx exTarget Profile.Test none false)).config.extra_rustflags ∧
     (Builder.mk (built_config mNativeDebug cfgNone pkgEx exTarget Profile.Test none false)).config.build_type =
       BuildType.Release) :=
  ⟨by decide,
   ⟨(C6_amended mNativeDebug cfgNone pkgEx exTarget Profile.Test none false
       ⟨built_config mNativeDebug cfgNone pkgEx exTarget Profile.Test none false⟩
       (by decide) (by decide)).1.mpr ⟨by decide, by decide⟩,
    (C6_amended mNativeDebug cfgNone pkgEx exTarget Profile.Test none false
       ⟨built_config mNativeDebug cfgNone pkgEx exTarget Profile.Test none false⟩
       (by decide) (by decide)).2 (by decide)⟩⟩

/-- C10: when both the native-wasm and the Emscripten-wasm flags are set, the
resolved triplet is `wasm32-unknown-unknown`, yet the Emscripten-targeting
predicate still holds, so the Emscripten augmentation is applied: the
runtime-exit flag pair is injected and, when the provisioner returns a
toolchain, its environment variables are exported. -/
theorem C10_conflicting_flags (m : Matches) (cfg : Config) (pkg : CargoPackage)
    (t : CargoTarget) (profile : Profile) (emsc : Option Emscripten) (inc : Bool)
    (b : Builder) (e : Emscripten)
    (h1 : m.target_webasm = true) (h2 : m.target_webasm_emscripten = true)
    (hspace : ∀ a ∈ cfg.link_args.getD [], containsSpace a = false)
    (hb : prepare_builder m cfg pkg t profile emsc inc = ProcOut.ok b)
    (he : emsc = some e) :
    b.config.triplet = some "wasm32-unknown-unknown" ∧
    targeting_emscripten m = true ∧
    ("link-arg=NO_EXIT_RUNTIME=" ++ (if profile == Profile.Main then "1" else "0")) ∈
      b.config.extra_rustflags ∧
    "link-arg=-s" ∈ b.config.extra_rustflags ∧
    ("EMSCRIPTEN", e.emscripten_path) ∈ b.config.extra_environment ∧
    ("LLVM", e.emscripten_llvm_path) ∈ b.config.extra_environment := by
  subst he
  rw [prepare_builder_ok m cfg pkg t profile (some e) inc hspace] at hb
  obtain rfl : (⟨built_config m cfg pkg t profile (some e) inc⟩ : Builder) = b :=
    ProcOut.ok.inj hb
  have htarg : targeting_emscripten m = true := by
    simp [targeting_emscripten, targeting_emscripten_wasm, h2]
  refine ⟨?_, htarg, ?_, ?_, ?_, ?_⟩
  · show some (triplet_or_default m) = some "wasm32-unknown-unknown"
    simp [triplet_or_default, h1]
  · show _ ∈ emscFlags m profile ++ linkArgFlags (cfg.link_args.getD []) ++ debugFlags m
    refine List.mem_append.mpr (Or.inl (List.mem_append.mpr (Or.inl ?_)))
    rw [emscFlags_eq_of_targeting m profile htarg]
    simp
  · show _ ∈ emscFlags m profile ++ linkArgFlags (cfg.link_args.getD []) ++ debugFlags m
    refine List.mem_append.mpr (Or.inl (List.mem_append.mpr (Or.inl ?_)))
    rw [emscFlags_eq_of_targeting m profile htarg]
    simp
  · show _ ∈ emscEnv m (some e) ++ incrEnv m inc
    refine List.mem_append.mpr (Or.inl ?_)
    simp [emscEnv, htarg, emscriptenEnv]
  · show _ ∈ emscEnv m (some e) ++ incrEnv m inc
    refine List.mem_append.mpr (Or.inl ?_)
    simp [emscEnv, htarg, emscriptenEnv]

/-- C10 (witness): both triplet flags at once, profile Main, a concrete
provisioner result: native triplet, Emscripten augmentation applied. -/
theorem C10_witness :
    (mBoth.target_webasm = true ∧ mBoth.target_webasm_emscripten = true ∧
     (∀ a ∈ cfgNone.link_args.getD [], containsSpace a = false) ∧
     prepare_builder mBoth cfgNone pkgEx exTarget Profile.Main (some emsdk) false =
       ProcOut.ok ⟨built_config mBoth cfgNone pkgEx exTarget Profile.Main (some emsdk) false⟩ ∧
     (some emsdk : Option Emscripten) = some emsdk) ∧
    ((Builder.mk (built_config mBoth cfgNone pkgEx exTarget Profile.Main (some emsdk) false)).config.triplet =
       some "wasm32-unknown-unknown" ∧
     targeting_emscripten mBoth = true ∧
     ("link-arg=NO_EXIT_RUNTIME=" ++ (if Profile.Main == Profile.Main then "1" else "0")) ∈
       (Builder.mk (built_config mBoth cfgNone pkgEx exTarget Profile.Main (some emsdk) false)).config.extra_rustflags ∧
     "link-arg=-s" ∈
       (Builder.mk (built_config mBoth cfgNone pkgEx exTarget Profile.Main (some emsdk) false)).config.extra_rustflags ∧
     ("EMSCRIPTEN", emsdk.emscripten_path) ∈
       (Builder.mk (built_config mBoth cfgNone pkgEx exTarget Profile.Main (some emsdk) false)).config.extra_environment ∧
     ("LLVM", emsdk.emscripten_llvm_path) ∈
       (Builder.mk (built_config mBoth cfgNone pkgEx exTarget Profile.Main (some emsdk) false)).config.extra_environment) :=
  ⟨by decide,
   C10_conflicting_flags mBoth cfgNone pkgEx exTarget Profile.Main (some emsdk) false
     ⟨built_config mBoth cfgNone pkgEx exTarget Profile.Main (some emsdk) false⟩ emsdk
     (by decide) (by decide) (by decide) (by decide) rfl⟩

/-- C4: counterexample to the claim as stated.  With the build-only flag set
and a toolchain that would build every target successfully, supplying the
native-wasm triplet flag without the script-runtime flag makes the command
return a ConfigurationError before any build, instead of exiting 0 — so the
outcome is not independent of the runtime and triplet flags. -/
theorem C4_counterexample :
    mC4.no_run = true ∧
    command_test mC4 projEx cfgNone false noCmd none false allOk allOk ≠ CmdResult.exited 0 ∧
    command_test mC4 projEx cfgNone false noCmd none false allOk allOk =
      CmdResult.errored (Error.ConfigurationError
        "running tests for the native wasm target is currently only supported with `--nodejs`") := by
  decide

/-- C4 (amended): with the build-only flag set, whenever the invocation
passes the pre-build compatibility check (not native-wasm without the
script-runtime flag), the package and targets resolve, no declared link
argument contains a space, and every resolved target builds successfully, the
command exits with status 0 immediately after the builds — independent of the
runtime prober and of what any test run would report. -/
theorem C4_amended (m : Matches) (proj : CargoProject) (cfg : Config)
    (windows : Bool) (cmdExists : String → Bool) (emsc : Option Emscripten) (inc : Bool)
    (buildOk : CargoTarget → Bool) (runStatus : CargoTarget → Bool)
    (pkg : CargoPackage) (ts : List CargoTarget)
    (hnorun : m.no_run = true)
    (hcompat : (targeting_native_wasm m && !m.nodejs) = false)
    (hpkg : package_or_default m proj = Except.ok pkg)
    (hts : test_targets m pkg = Except.ok ts)
    (hspace : ∀ a ∈ cfg.link_args.getD [], containsSpace a = false)
    (hbuild : ∀ t ∈ ts, buildOk t = true) :
    command_test m proj cfg windows cmdExists emsc inc buildOk runStatus =
      CmdResult.exited 0 := by
  rw [command_test_built m proj cfg windows cmdExists emsc inc buildOk runStatus pkg ts
    hcompat hpkg hts hspace hbuild]
  simp [hnorun]

/-- C4 (witness): build-only run over the mixed package with every build
succeeding and a prober that finds nothing: exit status 0. -/
theorem C4_witness :
    (mNoRun.no_run = true ∧
     (targeting_native_wasm mNoRun && !mNoRun.nodejs) = false ∧
     package_or_default mNoRun projMix = Except.ok pkgMix ∧
     test_targets mNoRun pkgMix = Except.ok [libT] ∧
     (∀ a ∈ cfgNone.link_args.getD [], containsSpace a = false) ∧
     (∀ t ∈ [libT], allOk t = true)) ∧
    command_test mNoRun projMix cfgNone false noCmd none false allOk failLib =
      CmdResult.exited 0 :=
  ⟨by decide,
   C4_amended mNoRun projMix cfgNone false noCmd none false allOk failLib pkgMix [libT]
     (by decide) (by decide) (by decide) (by decide) (by decide) (by decide)⟩

/-- C7: with targets `pre ++ bad :: post` where every target of `pre` builds
and `bad` is the first to fail, the Build Executor is invoked exactly for
`pre ++ [bad]`, in order; the loop stops with an opaque BuildError and the
targets of `post` are never built; the whole command then reports that
BuildError. -/
theorem C7_fail_fast (m : Matches) (proj : CargoProject) (cfg : Config)
    (windows : Bool) (cmdExists : String → Bool) (emsc : Option Emscripten) (inc : Bool)
    (buildOk : CargoTarget → Bool) (runStatus : CargoTarget → Bool)
    (pkg : CargoPackage) (pre : List CargoTarget) (bad : CargoTarget)
    (post : List CargoTarget)
    (hcompat : (targeting_native_wasm m && !m.nodejs) = false)
    (hpkg : package_or_default m proj = Except.ok pkg)
    (hts : test_targets m pkg = Except.ok (pre ++ bad :: post))
    (hspace : ∀ a ∈ cfg.link_args.getD [], containsSpace a = false)
    (hpre : ∀ t ∈ pre, buildOk t = true)
    (hbad : buildOk bad = false) :
    buildLoop m cfg pkg emsc inc buildOk (pre ++ bad :: post) =
      (pre ++ [bad], BuildOutcome.failed Error.BuildError) ∧
    command_test m proj cfg windows cmdExists emsc inc buildOk runStatus =
      CmdResult.errored Error.BuildError := by
  have hbl := buildLoop_firstfail m cfg pkg emsc inc buildOk hspace pre hpre bad hbad post
  refine ⟨hbl, ?_⟩
  simp only [command_test, hcompat, hpkg, hts, hbl, Bool.false_eq_true, if_false]

/-- C7 (witness): three resolved targets where the second fails to build: the
executor runs for the first two only and the command reports BuildError. -/
theorem C7_witness :
    ((targeting_native_wasm noFlags && !noFlags.nodejs) = false ∧
     package_or_default noFlags projMix3 = Except.ok pkgMix3 ∧
     test_targets noFlags pkgMix3 = Except.ok ([libT] ++ binT :: [testT]) ∧
     (∀ a ∈ cfgNone.link_args.getD [], containsSpace a = false) ∧
     (∀ t ∈ [libT], bOk t = true) ∧ bOk binT = false) ∧
    (buildLoop noFlags cfgNone pkgMix3 none false bOk ([libT] ++ binT :: [testT]) =
       ([libT] ++ [binT], BuildOutcome.failed Error.BuildError) ∧
     command_test noFlags projMix3 cfgNone false noCmd none false bOk failLib =
       CmdResult.errored Error.BuildError) :=
  ⟨by decide,
   C7_fail_fast noFlags projMix3 cfgNone false noCmd none false bOk failLib pkgMix3
     [libT] binT [testT] (by decide) (by decide) (by decide) (by decide) (by decide)
     (by decide)⟩

/-- C8: the aggregate failure flag is monotone — with the aggregate already
true, the script-runtime test loop can only return true — and, for an
invocation whose M (> 1) resolved targets all build and whose runtime is
found, the command exits with status 101 exactly when some per-target run
fails, completing normally when every run passes. -/
theorem C8_aggregate (m : Matches) (proj : CargoProject) (cfg : Config)
    (windows : Bool) (cmdExists : String → Bool) (emsc : Option Emscripten) (inc : Bool)
    (buildOk : CargoTarget → Bool) (runStatus : CargoTarget → Bool)
    (pkg : CargoPackage) (ts : List CargoTarget)
    (hcompat : (targeting_native_wasm m && !m.nodejs) = false)
    (hnorun : m.no_run = false)
    (hnodejs : m.nodejs = true)
    (hnode : cmdExists "node" = true)
    (hpkg : package_or_default m proj = Except.ok pkg)
    (hts : test_targets m pkg = Except.ok ts)
    (hspace : ∀ a ∈ cfg.link_args.getD [], containsSpace a = false)
    (hbuild : ∀ t ∈ ts, buildOk t = true)
    (hM : 1 < ts.length) :
    (∀ bs af, testLoop windows cmdExists runStatus true bs true = Except.ok af → af = true) ∧
    ((∃ t ∈ ts, runStatus t = false) →
        command_test m proj cfg windows cmdExists emsc inc buildOk runStatus =
          CmdResult.exited 101) ∧
    ((∀ t ∈ ts, runStatus t = true) →
        command_test m proj cfg windows cmdExists emsc inc buildOk runStatus =
          CmdResult.completed) := by
  have hcmd := command_test_built m proj cfg windows cmdExists emsc inc buildOk runStatus
    pkg ts hcompat hpkg hts hspace hbuild
  rw [hnodejs] at hcmd
  have hloop := testLoop_node windows cmdExists runStatus hnode
    (ts.map (fun t => (⟨t⟩ : CargoResult))) false
  refine ⟨?_, ?_, ?_⟩
  · intro bs af h
    rw [testLoop_node windows cmdExists runStatus hnode bs true] at h
    have := Except.ok.inj h
    rw [Bool.true_or] at this
    exact this.symm
  · rintro ⟨t, ht, hft⟩
    rw [hcmd, hloop]
    have hany : (ts.map (fun t => (⟨t⟩ : CargoResult))).any
        (fun b => !(runStatus b.target)) = true :=
      List.any_eq_true.mpr ⟨⟨t⟩, List.mem_map.mpr ⟨t, ht, rfl⟩, by simp [hft]⟩
    simp [hnorun, hany]
  · intro hall
    rw [hcmd, hloop]
    have hany : (ts.map (fun t => (⟨t⟩ : CargoResult))).any
        (fun b => !(runStatus b.target)) = false := by
      rw [List.any_eq_false]
      intro b hb
      rcases List.mem_map.mp hb with ⟨u, hu, rfl⟩
      simp [hall u hu]
    simp [hnorun, hany]

/-- C8 (witness): two built targets, the library run failing and the test run
passing: the aggregate is true and the command exits 101; the monotonicity
part applied to a later passing run keeps the flag true. -/
theorem C8_witness :
    ((targeting_native_wasm mNode && !mNode.nodejs) = false ∧
     mNode.no_run = false ∧ mNode.nodejs = true ∧ anyCmd "node" = true ∧
     package_or_default mNode proj2 = Except.ok pkg2 ∧
     test_targets mNode pkg2 = Except.ok [libT, testT] ∧
     (∀ a ∈ cfgNone.link_args.getD [], containsSpace a = false) ∧
     (∀ t ∈ [libT, testT], allOk t = true) ∧ 1 < [libT, testT].length ∧
     libT ∈ [libT, testT] ∧ failLib libT = false) ∧
    command_test mNode proj2 cfgNone false anyCmd none false allOk failLib =
      CmdResult.exited 101 :=
  ⟨by decide,
   (C8_aggregate mNode proj2 cfgNone false anyCmd none false allOk failLib pkg2
      [libT, testT] (by decide) (by decide) (by decide) (by decide) (by decide)
      (by decide) (by decide) (by decide) (by decide)).2.1
     ⟨libT, by decide, by decide⟩⟩

end CargoWeb
